import Mathlib

/-!
Shallow embedding of `src/fake_upload.py` (class `ParallelUploader` and the
command-line entry point `main`), together with theorems settling the frozen
claims about it.

Conventions of the embedding:
- Python `int` counters become `Nat`; Python `float` quantities become `Rat`
  (the float literals involved, such as `1.1`, are modelled by the exact
  rationals they denote in the source text).
- Byte buffers become `List Nat`, each entry below 256.
- The global random generator is passed explicitly as a stream `Nat → Nat`.
- Code guarded by `self.stats_lock` executes atomically, so a concurrent run
  is modelled as a sequence (list) of serialized lock-protected updates.
- Network effects (connect, sendall, recv) are modelled by an oracle record
  saying which of the calls succeed.
-/

namespace FakeUpload

/-- Shared upload statistics of `ParallelUploader.__init__` (lines 45 to 47):
`uploaded_bytes`, `successful_uploads` and `failed_uploads`, all starting at
zero and guarded by `stats_lock`. -/
structure Stats where
  uploaded_bytes : Nat
  successful_uploads : Nat
  failed_uploads : Nat
  deriving Repr, DecidableEq

/-- The counters as initialized in `__init__`: all zero. -/
def initStats : Stats :=
  { uploaded_bytes := 0, successful_uploads := 0, failed_uploads := 0 }

/-- One lock-protected post-send update of `upload_worker` (lines 175 to 180):
on success add the byte count of the sent data to `uploaded_bytes` and bump
`successful_uploads`, otherwise bump `failed_uploads`. -/
def record (s : Stats) (success : Bool) (n : Nat) : Stats :=
  if success then
    { s with
      uploaded_bytes := s.uploaded_bytes + n
      successful_uploads := s.successful_uploads + 1 }
  else
    { s with failed_uploads := s.failed_uploads + 1 }

/-- A serialized run of lock-protected updates: the lock in the source forces
every concurrent execution to be equivalent to some such sequence. -/
def applyEvents (s : Stats) (events : List (Bool × Nat)) : Stats :=
  events.foldl (fun st e => record st e.1 e.2) s

/-- Line 35: `self.chunk_size_bytes = chunk_size_mb * 1024 * 1024`. -/
def chunk_size_bytes (chunk_size_mb : Nat) : Nat :=
  chunk_size_mb * 1024 * 1024

/-- Line 41: `self.total_bytes = daily_gb * 1024 * 1024 * 1024`. -/
def total_bytes (daily_gb : ℚ) : ℚ :=
  daily_gb * 1024 * 1024 * 1024

/-- Line 42: `self.bytes_per_second = self.total_bytes / (duration_hours * 3600)`. -/
def bytes_per_second (total : ℚ) (duration_hours : ℚ) : ℚ :=
  total / (duration_hours * 3600)

/-- `generate_random_data` (lines 75 to 78):
`bytearray(random.getrandbits(8) for _ in range(size))`. The global random
generator is passed as the stream `rng`; `getrandbits(8)` yields a value
below 256, modelled as `rng i % 256`. -/
def generate_random_data (rng : Nat → Nat) (size : Nat) : List Nat :=
  (List.range size).map (fun i => rng i % 256)

/-- Rendering of the Python format `f"{v:.2f}"` on a rational: the value
rounded to two decimal places, printed with sign, integer part and a
two-digit fraction. -/
def fmt2 (q : ℚ) : String :=
  let n : ℤ := round (q * 100)
  let a : Nat := n.natAbs
  (if n < 0 then "-" else "") ++ toString (a / 100) ++ "." ++
    (if a % 100 < 10 then "0" else "") ++ toString (a % 100)

/-- The unit loop of `format_bytes` (lines 82 to 86): try each unit in order,
returning as soon as the value is below 1024, dividing by 1024 otherwise;
when the units run out, report in PB. -/
def format_bytes_go : ℚ → List String → String
  | v, [] => fmt2 v ++ " PB"
  | v, u :: rest =>
      if v < 1024 then fmt2 v ++ " " ++ u else format_bytes_go (v / 1024) rest

/-- `format_bytes` (lines 80 to 86) with its unit list `B KB MB GB TB`. -/
def format_bytes (bytes_val : ℚ) : String :=
  format_bytes_go bytes_val ["B", "KB", "MB", "GB", "TB"]

/-- `calculate_speed` (lines 88 to 93): return the literal `0 B/s` when
`elapsed_seconds == 0`, otherwise format `bytes_uploaded / elapsed_seconds`. -/
def calculate_speed (bytes_uploaded elapsed_seconds : ℚ) : String :=
  if elapsed_seconds = 0 then "0 B/s"
  else format_bytes (bytes_uploaded / elapsed_seconds) ++ "/s"

/-- The statistics updates produced by worker iterations (`upload_worker`
lines 172 to 180): each send records its outcome together with
`len(data)` where `data = generate_random_data(chunk_size_bytes)`. -/
def workerEvents (rng : Nat → Nat) (chunk : Nat) (sends : List Bool) :
    List (Bool × Nat) :=
  sends.map (fun b => (b, (generate_random_data rng chunk).length))

/-- The HTTP request header `send_data` builds (lines 130 to 139), with
`content_length = len(data)` substituted into the Content-Length field. -/
def buildHeaders (host : String) (content_length : Nat) : String :=
  "POST /upload HTTP/1.1\r\n" ++
  "Host: " ++ host ++ "\r\n" ++
  "Content-Length: " ++ toString content_length ++ "\r\n" ++
  "Content-Type: application/octet-stream\r\n" ++
  "Connection: keep-alive\r\n" ++
  "\r\n"

/-- The bytes of the UTF-8 encoding of a header string, one per character
(every character of the built header is ASCII). -/
def stringBytes (s : String) : List Nat :=
  s.toList.map Char.toNat

/-- The byte stream `send_data` writes on its socket for one payload
(lines 141 to 143): the encoded header followed by the data. The target
port is used only to connect (line 128); it never changes the framing. -/
def sentStream (host : String) (port : Nat) (data : List Nat) : List Nat :=
  stringBytes (buildHeaders host data.length) ++ data

/-- Outcome oracle for one `send_data` call: which of the fallible socket
operations succeed (socket creation, connect, the sendall of the headers,
the sendall of the payload, the optional recv). -/
structure NetOracle where
  socket_ok : Bool
  connect_ok : Bool
  send_headers_ok : Bool
  send_payload_ok : Bool
  recv_ok : Bool
  deriving Repr, DecidableEq

/-- What one `send_data` call produced: its boolean return value, whether a
socket object was created, and whether that socket was closed. -/
structure SendOutcome where
  result : Bool
  socket_created : Bool
  closed : Bool
  deriving Repr, DecidableEq

/-- Control flow of `send_data` (lines 122 to 160): any exception before
`return True` is caught at line 153 and yields False; an exception in the
optional recv (line 147) is swallowed by the inner bare except at line 148
and does not reach the outer handler; the finally block (lines 155 to 160)
closes the socket whenever one was created, on every exit path. -/
def send_data (o : NetOracle) : SendOutcome :=
  if o.socket_ok = false then
    { result := false, socket_created := false, closed := false }
  else if o.connect_ok = false then
    { result := false, socket_created := true, closed := true }
  else if o.send_headers_ok = false then
    { result := false, socket_created := true, closed := true }
  else if o.send_payload_ok = false then
    { result := false, socket_created := true, closed := true }
  else
    { result := true, socket_created := true, closed := true }

/-- Line 200: `expected_bytes = self.bytes_per_second * elapsed`. -/
def expected_bytes (bps elapsed : ℚ) : ℚ :=
  bps * elapsed

/-- The damping decision of `speed_controller` (lines 199 to 204): the extra
`time.sleep(0.5)` happens exactly when `current_bytes > expected_bytes * 1.1`,
with the float literal `1.1` denoting the rational 11/10. -/
def controllerDamps (bps elapsed : ℚ) (current_bytes : Nat) : Bool :=
  decide ((current_bytes : ℚ) > expected_bytes bps elapsed * (11 / 10))

/-- One observation of the supervisor polling loop: the value of
`uploaded_bytes` read under the lock (line 252) and the value of
`time.time()` read at line 256. -/
structure Obs where
  bytes : Nat
  time : ℚ
  deriving Repr, DecidableEq

/-- Why the bounded-mode polling loop of `run` broke out. -/
inductive StopReason
  | goal
  | timeExpired
  deriving Repr, DecidableEq

/-- The bounded-mode polling loop of `run` (lines 248 to 259) over a finite
trace of observations: at each iteration check the byte goal first
(line 252), then the deadline (line 256), otherwise sleep and poll again.
`none` means the loop was still running when the trace ended; on `some` the
supervisor sets the stop event right after the break (line 262). -/
def superviseBounded (total end_time : ℚ) :
    List Obs → Option (StopReason × Obs)
  | [] => none
  | o :: rest =>
      if total ≤ (o.bytes : ℚ) then some (StopReason.goal, o)
      else if end_time ≤ o.time then some (StopReason.timeExpired, o)
      else superviseBounded total end_time rest

/-- How far the program got before launching upload workers. -/
inductive StartupResult
  | configExit
  | initCrash
  | probeAbort
  | workersLaunched (n : Nat)
  deriving Repr, DecidableEq

/-- Startup path of `main` (lines 353 to 379) into `ParallelUploader.run`
(lines 209 to 240): validate the thread count and the chunk size, exiting on
violation (lines 356 to 362); construct the uploader, whose line 42 divides
by `duration_hours * 3600`, so a zero duration raises an unhandled
ZeroDivisionError before `run` is called; run the connectivity probe
(line 212), returning early on failure; on probe success start the worker
threads (lines 237 to 240). The gigabytes and duration arguments are never
validated. -/
def mainStartup (threads chunk_size : Int) (gigabytes duration : ℚ)
    (probe_ok : Bool) : StartupResult :=
  if threads < 1 ∨ threads > 100 then StartupResult.configExit
  else if chunk_size < 1 ∨ chunk_size > 100 then StartupResult.configExit
  else if duration * 3600 = 0 then StartupResult.initCrash
  else if probe_ok = false then StartupResult.probeAbort
  else StartupResult.workersLaunched threads.toNat

/-- What a whole `run` call produced in the model: how many worker threads
were started, whether the speed controller thread was started, and the final
statistics. -/
structure RunOutcome where
  workers_started : Nat
  controller_started : Bool
  stats : Stats
  deriving Repr, DecidableEq

/-- Control flow of `run` (lines 209 to 244): when the connectivity probe
`test_connection` fails, return at line 218 before any worker thread or the
speed controller thread is created, leaving the statistics at their initial
zeros; otherwise start `num_threads` workers (lines 237 to 240) and the
controller (lines 242 to 244), after which the statistics evolve by the
serialized record events. -/
def run_model (probe_ok : Bool) (num_threads : Nat)
    (events : List (Bool × Nat)) : RunOutcome :=
  if probe_ok = false then
    { workers_started := 0, controller_started := false, stats := initStats }
  else
    { workers_started := num_threads, controller_started := true,
      stats := applyEvents initStats events }

end FakeUpload

open FakeUpload

lemma record_uploaded (s : Stats) (b : Bool) (n : Nat) :
    (record s b n).uploaded_bytes =
      s.uploaded_bytes + (if b then n else 0) := by
  cases b <;> simp [record]

lemma record_succ_count (s : Stats) (b : Bool) (n : Nat) :
    (record s b n).successful_uploads =
      s.successful_uploads + (if b then 1 else 0) := by
  cases b <;> simp [record]

lemma record_fail_count (s : Stats) (b : Bool) (n : Nat) :
    (record s b n).failed_uploads =
      s.failed_uploads + (if b then 0 else 1) := by
  cases b <;> simp [record]

lemma applyEvents_counts (events : List (Bool × Nat)) (s : Stats) :
    (applyEvents s events).successful_uploads +
        (applyEvents s events).failed_uploads =
      s.successful_uploads + s.failed_uploads + events.length := by
  induction events generalizing s with
  | nil => simp [applyEvents]
  | cons e rest ih =>
    have h := ih (record s e.1 e.2)
    simp only [applyEvents, List.foldl_cons] at h ⊢
    rw [h, record_succ_count, record_fail_count]
    cases e.1 <;> (simp; try omega)

lemma applyEvents_uploaded (events : List (Bool × Nat)) (s : Stats) :
    (applyEvents s events).uploaded_bytes =
      s.uploaded_bytes +
        ((events.filter (fun e => e.1)).map (fun e => e.2)).sum := by
  induction events generalizing s with
  | nil => simp [applyEvents]
  | cons e rest ih =>
    have h := ih (record s e.1 e.2)
    simp only [applyEvents, List.foldl_cons] at h ⊢
    rw [h, record_uploaded]
    cases hb : e.1 <;> (simp [List.filter_cons, hb]; try omega)

lemma generate_random_data_len (rng : Nat → Nat) (n : Nat) :
    (generate_random_data rng n).length = n := by
  simp [generate_random_data]

lemma applyEvents_const_chunk (sends : List Bool) (chunk : Nat) (s : Stats)
    (h : s.uploaded_bytes = s.successful_uploads * chunk) :
    (applyEvents s (sends.map (fun b => (b, chunk)))).uploaded_bytes =
      (applyEvents s (sends.map (fun b => (b, chunk)))).successful_uploads *
        chunk := by
  induction sends generalizing s with
  | nil => simpa [applyEvents]
  | cons b rest ih =>
    simp only [List.map_cons, applyEvents, List.foldl_cons] at ih ⊢
    apply ih
    cases b <;> (simp [record, h]; try ring)

/-- C3: for every sequence of concurrent record operations (serialized by
`stats_lock`), the final `successful_uploads + failed_uploads` equals the
number of record calls, `uploaded_bytes` equals the sum of the byte counts of
exactly the successful calls, and each single `record` increments
`successful_uploads` or `failed_uploads` by one and, on success,
`uploaded_bytes` by the byte count, leaving the other counters unchanged. -/
theorem record_accounting (events : List (Bool × Nat)) :
    (applyEvents initStats events).successful_uploads +
        (applyEvents initStats events).failed_uploads = events.length
    ∧ (applyEvents initStats events).uploaded_bytes =
        ((events.filter (fun e => e.1)).map (fun e => e.2)).sum
    ∧ (∀ s : Stats, ∀ n : Nat,
        (record s true n).uploaded_bytes = s.uploaded_bytes + n
        ∧ (record s true n).successful_uploads = s.successful_uploads + 1
        ∧ (record s true n).failed_uploads = s.failed_uploads
        ∧ (record s false n).uploaded_bytes = s.uploaded_bytes
        ∧ (record s false n).successful_uploads = s.successful_uploads
        ∧ (record s false n).failed_uploads = s.failed_uploads + 1) := by
  refine ⟨?_, ?_, ?_⟩
  · simpa [initStats] using applyEvents_counts events initStats
  · simpa [initStats] using applyEvents_uploaded events initStats
  · intro s n
    refine ⟨?_, ?_, ?_, ?_, ?_, ?_⟩ <;> simp [record]

/-- C8: for every requested byte count `n`, `generate_random_data` returns a
buffer of exactly `n` bytes, each a value below 256, for every state of the
random stream; as a total function it has no failure modes. -/
theorem generate_random_data_exact (rng : Nat → Nat) (n : Nat) :
    (generate_random_data rng n).length = n
    ∧ ∀ b ∈ generate_random_data rng n, b < 256 := by
  refine ⟨generate_random_data_len rng n, ?_⟩
  intro b hb
  simp only [generate_random_data, List.mem_map] at hb
  obtain ⟨i, _, rfl⟩ := hb
  exact Nat.mod_lt _ (by norm_num)

/-- C9: in every state reachable by worker post-send updates (each successful
send adds `len(data)` bytes where `data` is one generated chunk of the fixed
configured size), `uploaded_bytes = successful_uploads * chunk_size_bytes`,
so `uploaded_bytes` is always a multiple of the chunk size. -/
theorem uploaded_bytes_chunk_multiple (rng : Nat → Nat)
    (chunk_size_mb : Nat) (sends : List Bool) :
    (applyEvents initStats
        (workerEvents rng (chunk_size_bytes chunk_size_mb) sends)).uploaded_bytes =
      (applyEvents initStats
          (workerEvents rng (chunk_size_bytes chunk_size_mb) sends)).successful_uploads *
        chunk_size_bytes chunk_size_mb := by
  have hlen : workerEvents rng (chunk_size_bytes chunk_size_mb) sends =
      sends.map (fun b => (b, chunk_size_bytes chunk_size_mb)) := by
    simp [workerEvents, generate_random_data_len]
  rw [hlen]
  exact applyEvents_const_chunk sends _ initStats (by simp [initStats])

/-- C10: `calculate_speed` returns the string `0 B/s` when the elapsed time
is zero and otherwise formats `bytes_uploaded / elapsed_seconds`; being a
total function it never divides by zero. -/
theorem calculate_speed_safe (b : ℚ) :
    calculate_speed b 0 = "0 B/s"
    ∧ ∀ e : ℚ, e ≠ 0 → calculate_speed b e = format_bytes (b / e) ++ "/s" := by
  constructor
  · simp [calculate_speed]
  · intro e he
    simp [calculate_speed, he]

/-- Witness for C10 at a concrete nonzero elapsed time. -/
theorem calculate_speed_safe_witness :
    calculate_speed 100 0 = "0 B/s"
    ∧ calculate_speed 100 2 = format_bytes (100 / 2) ++ "/s" :=
  ⟨(calculate_speed_safe 100).1, (calculate_speed_safe 100).2 2 (by norm_num)⟩

lemma stringBytes_length (s : String) : (stringBytes s).length = s.length := by
  rw [stringBytes, List.length_map]
  rfl

lemma header_length_pos (host : String) (n : Nat) :
    1 ≤ (buildHeaders host n).length := by
  have h1 : ("POST /upload HTTP/1.1\r\nHost: " : String).length = 29 := rfl
  simp [buildHeaders, String.length_append, h1]
  omega

/-- Counterexample to C1: with target port 9 the sender still writes the
HTTP request header before the payload, so the stream on the wire is not
the bare buffer. -/
theorem send_data_port9_not_raw :
    sentStream "localhost" 9 [65] ≠ [65] := by
  intro h
  have hl := congrArg List.length h
  simp only [sentStream, List.length_append, stringBytes_length,
    List.length_singleton] at hl
  have hp := header_length_pos "localhost" (List.length [65])
  simp only [List.length_singleton] at hp
  omega

/-- C1 as amended: for every target port, including 9, `send_data` uses
framed mode: the stream it writes is the HTTP request header followed by the
payload, the header embeds a Content-Length field whose value is exactly the
payload size, the framing does not depend on the port, and the stream is
never the bare payload (raw mode never happens). -/
theorem send_data_always_framed (host : String) (port port2 : Nat)
    (data : List Nat) :
    sentStream host port data = stringBytes (buildHeaders host data.length) ++ data
    ∧ sentStream host port data = sentStream host port2 data
    ∧ (∃ pre post : List Char,
        (buildHeaders host data.length).data =
          pre ++ ("Content-Length: " ++ toString data.length ++ "\r\n").data ++ post)
    ∧ data.length < (sentStream host port data).length := by
  refine ⟨rfl, rfl, ?_, ?_⟩
  · refine ⟨("POST /upload HTTP/1.1\r\n" ++ "Host: " ++ host ++ "\r\n").data,
      ("Content-Type: application/octet-stream\r\n" ++
        "Connection: keep-alive\r\n" ++ "\r\n").data, ?_⟩
    simp [buildHeaders, String.data_append]
  · have hp := header_length_pos host data.length
    simp only [sentStream, List.length_append, stringBytes_length]
    omega

/-- C7: `send_data` returns True exactly when the connection was established
and the full buffer (header and payload) was written without error; the
outcome of the optional response read never changes the result; and whenever
a socket was created it is closed, on every exit path. -/
theorem send_data_contract (o : NetOracle) :
    ((send_data o).result =
      (o.socket_ok && o.connect_ok && o.send_headers_ok && o.send_payload_ok))
    ∧ ((send_data o).closed = (send_data o).socket_created)
    ∧ (∀ r : Bool, send_data { o with recv_ok := r } = send_data o) := by
  obtain ⟨a, b, c, d, e⟩ := o
  revert a b c d e
  decide

/-- C2: whenever the bounded-mode supervisor loop stops on a trace of
observations, the observation at which it stops satisfies the byte goal or
the deadline, every strictly earlier observation satisfies neither (so the
stop event is set only at or after the first moment a condition holds), and
when the loop stopped because the goal was reached, the byte counter it
observed is at least the total. -/
theorem bounded_mode_stop (total end_time : ℚ) (trace : List Obs)
    (r : StopReason) (o : Obs)
    (h : superviseBounded total end_time trace = some (r, o)) :
    (total ≤ (o.bytes : ℚ) ∨ end_time ≤ o.time)
    ∧ (r = StopReason.goal → total ≤ (o.bytes : ℚ))
    ∧ ∃ i : Nat, ∃ hi : i < trace.length, trace.get ⟨i, hi⟩ = o
        ∧ ∀ x ∈ trace.take i,
            ¬(total ≤ (x.bytes : ℚ) ∨ end_time ≤ x.time) := by
  induction trace with
  | nil => simp [superviseBounded] at h
  | cons a rest ih =>
    by_cases hb : total ≤ (a.bytes : ℚ)
    · rw [superviseBounded, if_pos hb] at h
      have h2 : (StopReason.goal, a) = (r, o) := Option.some.inj h
      obtain ⟨hr, ho⟩ := Prod.mk.injEq _ _ _ _ ▸ h2
      subst hr; subst ho
      exact ⟨Or.inl hb, fun _ => hb, 0, by simp, by simp, by simp⟩
    · by_cases ht : end_time ≤ a.time
      · rw [superviseBounded, if_neg hb, if_pos ht] at h
        have h2 : (StopReason.timeExpired, a) = (r, o) := Option.some.inj h
        obtain ⟨hr, ho⟩ := Prod.mk.injEq _ _ _ _ ▸ h2
        subst hr; subst ho
        refine ⟨Or.inr ht, ?_, 0, by simp, by simp, by simp⟩
        intro hg
        exact absurd hg (by simp)
      · rw [superviseBounded, if_neg hb, if_neg ht] at h
        obtain ⟨hcond, hgoal, i, hi, hget, hprev⟩ := ih h
        refine ⟨hcond, hgoal, i + 1, by simpa using Nat.succ_lt_succ hi, ?_, ?_⟩
        · simpa using hget
        · intro x hx
          rw [List.take_succ_cons] at hx
          rcases List.mem_cons.mp hx with rfl | hx2
          · rintro (hc | hc)
            · exact hb hc
            · exact ht hc
          · exact hprev x hx2

/-- Witness for C2: on a concrete trace reaching one million bytes at its
third observation, the supervisor stops with the goal reason and the stop
condition holds at the stopping observation. -/
theorem bounded_mode_stop_witness :
    (1000000 : ℚ) ≤ ((1000000 : Nat) : ℚ) ∨ (100 : ℚ) ≤ ((2 : ℚ)) :=
  (bounded_mode_stop 1000000 100
      [⟨0, 0⟩, ⟨999999, 1⟩, ⟨1000000, 2⟩] StopReason.goal ⟨1000000, 2⟩
      (by norm_num [superviseBounded])).1

/-- C4: the speed controller inserts its extra damping delay exactly when
`current_bytes > expected_bytes * 1.1` with
`expected_bytes = bytes_per_second * elapsed` and
`bytes_per_second = total_bytes / (duration_hours * 3600)`; in particular a
target of 1000 bytes per second with elapsed 10 seconds damps at 12000
current bytes and does not damp at 10500. -/
theorem speed_controller_damping :
    (∀ (total duration_hours elapsed : ℚ) (current_bytes : Nat),
        controllerDamps (bytes_per_second total duration_hours) elapsed
            current_bytes = true
          ↔ (current_bytes : ℚ) >
              expected_bytes (bytes_per_second total duration_hours) elapsed *
                (11 / 10))
    ∧ bytes_per_second 3600000 1 = 1000
    ∧ controllerDamps 1000 10 12000 = true
    ∧ controllerDamps 1000 10 10500 = false := by
  refine ⟨fun total dh e c => by simp [controllerDamps], ?_, ?_, ?_⟩
  · norm_num [bytes_per_second]
  · simp only [controllerDamps, expected_bytes, decide_eq_true_eq]
    norm_num
  · simp only [controllerDamps, expected_bytes, decide_eq_false_iff_not]
    norm_num

/-- Counterexample to C5: a zero-volume goal and a negative duration are
both invalid per the claim, yet startup passes validation and launches the
worker threads. -/
theorem validation_skips_volume_duration :
    mainStartup 4 10 0 24 true = StartupResult.workersLaunched 4
    ∧ mainStartup 4 10 100 (-1) true = StartupResult.workersLaunched 4 := by
  constructor <;> (norm_num [mainStartup]; rfl)

/-- C5 as amended: startup fails fatally before any worker is launched for
an invalid worker count (outside 1 to 100) or an invalid chunk size (outside
1 to 100 MB); the total-volume goal and the duration are not validated
(duration zero crashes on the rate division before workers start, while
other non-positive volumes and durations proceed to launch workers). -/
theorem config_validation_exits (threads chunk_size : Int)
    (gigabytes duration : ℚ) (probe_ok : Bool)
    (h : threads < 1 ∨ threads > 100 ∨ chunk_size < 1 ∨ chunk_size > 100) :
    mainStartup threads chunk_size gigabytes duration probe_ok =
      StartupResult.configExit := by
  by_cases ht : threads < 1 ∨ threads > 100
  · simp [mainStartup, ht]
  · have hc : chunk_size < 1 ∨ chunk_size > 100 := by
      rcases h with h | h | h | h
      · exact absurd (Or.inl h) ht
      · exact absurd (Or.inr h) ht
      · exact Or.inl h
      · exact Or.inr h
    simp [mainStartup, ht, hc]

/-- Witness for C5 amended at a concrete invalid thread count of zero. -/
theorem config_validation_exits_witness :
    ((0 : Int) < 1 ∨ (0 : Int) > 100 ∨ (10 : Int) < 1 ∨ (10 : Int) > 100)
    ∧ mainStartup 0 10 100 24 true = StartupResult.configExit :=
  ⟨Or.inl (by norm_num),
    config_validation_exits 0 10 100 24 true (Or.inl (by norm_num))⟩

/-- C6: when the pre-flight connectivity probe fails, `run` aborts before
starting anything: no worker thread is started, the speed controller is not
started, and all three statistics counters remain zero, for every thread
count and every would-be sequence of events. -/
theorem probe_failure_aborts (num_threads : Nat)
    (events : List (Bool × Nat)) :
    (run_model false num_threads events).workers_started = 0
    ∧ (run_model false num_threads events).controller_started = false
    ∧ (run_model false num_threads events).stats.uploaded_bytes = 0
    ∧ (run_model false num_threads events).stats.successful_uploads = 0
    ∧ (run_model false num_threads events).stats.failed_uploads = 0 := by
  refine ⟨?_, ?_, ?_, ?_, ?_⟩ <;> simp [run_model, initStats]
